import Mathlib

/-!
Verification of the generic document repository and the delegated
authentication guard of the `nestjs-microservice-example` repository,
as a shallow embedding in Lean.

The embedding follows the TypeScript source:
* `libs/common/src/database/abstract.repository.ts` (`AbstractRepository`)
* `libs/common/src/auth/jwt-auth.guard.ts` (`JwtAuthGuard.canActivate`)
* `apps/auth/src/users/users.service.ts` (`UsersService`)
* `apps/auth/src/strategies/local.strategy.ts` / `jwt.strategy.ts`
* `apps/auth/src/auth.service.ts` (`AuthService.login`)
* `apps/auth/src/auth.controller.ts` (`AuthController.authenticate`)

Modelling conventions:
* A MongoDB collection is a list of documents in insertion order plus a
  counter supplying fresh `ObjectId`s (`new Types.ObjectId()` is modelled
  as drawing the next counter value; its only relevant property is
  freshness).
* A Mongoose `FilterQuery` is modelled as a boolean predicate on
  documents; `findOne`/`findOneAndUpdate`/`findOneAndDelete` operate on
  the first matching document, `find` on all of them.
* A thrown exception is modelled as an `Except.error` carrying the
  exception class that the source throws; an infrastructure failure of
  the underlying store (store unreachable) is modelled by the `avail`
  flag on each store access: when it is `false` the access fails with
  `AppError.unavailable` instead of producing a result.
-/

namespace NestMicro

/-- The exception classes thrown by the embedded code, plus the
infrastructure failure category (`Unavailable`: store or remote authority
unreachable), which the source does not throw itself but can receive from
the Mongo driver / RPC transport. -/
inductive AppError where
  | notFoundException
  | unauthorizedException
  | unprocessableEntityException
  | unavailable
deriving Repr, DecidableEq

/-! ## `AbstractDocument` and `AbstractRepository`
(`libs/common/src/database/abstract.schema.ts`, `abstract.repository.ts`) -/

/-- A stored document: the `_id` assigned at creation time (`ObjectId`,
modelled as `Nat`) plus the entity-specific fields `data`. -/
structure Doc (α : Type) where
  _id : Nat
  data : α
deriving Repr, DecidableEq

/-- A MongoDB collection backing one repository: the stored documents in
insertion order, and the counter from which fresh `ObjectId`s are drawn. -/
structure Collection (α : Type) where
  docs : List (Doc α)
  nextId : Nat
deriving Repr, DecidableEq

namespace AbstractRepository

variable {α : Type}

/-- `AbstractRepository.create`: assign a fresh `_id`, persist, and return
the stored representation. Fails only when the store is unreachable. -/
def create (avail : Bool) (c : Collection α) (document : α) :
    Except AppError (Doc α × Collection α) :=
  if !avail then .error .unavailable
  else
    let createdDocument : Doc α := { _id := c.nextId, data := document }
    .ok (createdDocument,
      { docs := c.docs ++ [createdDocument], nextId := c.nextId + 1 })

/-- `AbstractRepository.findOne`: return the first document matching the
filter query; throw `NotFoundException` when none matches. -/
def findOne (avail : Bool) (c : Collection α) (filterQuery : Doc α → Bool) :
    Except AppError (Doc α) :=
  if !avail then .error .unavailable
  else
    match c.docs.find? filterQuery with
    | some document => .ok document
    | none => .error .notFoundException

/-- Replace the first list element satisfying `p` by its image under `f`. -/
def updateFirst (p : Doc α → Bool) (f : Doc α → Doc α) :
    List (Doc α) → List (Doc α)
  | [] => []
  | d :: ds => if p d then f d :: ds else d :: updateFirst p f ds

/-- Remove the first list element satisfying `p`. -/
def removeFirst (p : Doc α → Bool) : List (Doc α) → List (Doc α)
  | [] => []
  | d :: ds => if p d then ds else d :: removeFirst p ds

/-- `AbstractRepository.findOneAndUpdate` with `{ new: true }`: atomically
update the first matching document and return its post-update
representation; throw `NotFoundException` when none matches. The partial
`UpdateQuery` (`$set`) is modelled as a function on the document fields. -/
def findOneAndUpdate (avail : Bool) (c : Collection α)
    (filterQuery : Doc α → Bool) (update : α → α) :
    Except AppError (Doc α × Collection α) :=
  if !avail then .error .unavailable
  else
    match c.docs.find? filterQuery with
    | none => .error .notFoundException
    | some document =>
        .ok ({ document with data := update document.data },
          { c with
              docs := updateFirst filterQuery
                (fun d => { d with data := update d.data }) c.docs })

/-- `AbstractRepository.find`: all matching documents; an empty result is
not an error. -/
def find (avail : Bool) (c : Collection α) (filterQuery : Doc α → Bool) :
    Except AppError (List (Doc α)) :=
  if !avail then .error .unavailable
  else .ok (c.docs.filter filterQuery)

/-- `AbstractRepository.findOneAndDelete`: atomically remove the first
matching document and return its pre-deletion representation; throw
`NotFoundException` when none matches. -/
def findOneAndDelete (avail : Bool) (c : Collection α)
    (filterQuery : Doc α → Bool) :
    Except AppError (Doc α × Collection α) :=
  if !avail then .error .unavailable
  else
    match c.docs.find? filterQuery with
    | none => .error .notFoundException
    | some document =>
        .ok (document, { c with docs := removeFirst filterQuery c.docs })

/-- Invariant maintained by the repository: every stored `_id` was drawn
from the counter, hence is below its current value (so fresh ids are
unique). -/
def WellFormed (c : Collection α) : Prop :=
  ∀ d ∈ c.docs, d._id < c.nextId

end AbstractRepository

/-! ## `JwtAuthGuard` (`libs/common/src/auth/jwt-auth.guard.ts`)

The guard reads three locations of the incoming request:
`cookies?.Authentication`, the raw `Authentication` field of the request
object, and `headers?.Authentication`. Each is modelled as an
`Option String` (`none` covers both a missing container and a missing
key, which behave identically under JavaScript optional chaining). The
source combines them with JavaScript `||`, whose falsy strings are
`undefined` and `""`. -/

/-- JavaScript truthiness of an optional string: `undefined` and the
empty string are falsy. -/
def jsTruthy : Option String → Bool
  | none => false
  | some s => !(s == "")

/-- JavaScript `a || b` on optional strings: `b` when `a` is falsy. -/
def jsOr (a b : Option String) : Option String :=
  if jsTruthy a then a else b

/-- The response payload type of the remote authority and the identity
attached to admitted requests; the guard is parametric in it (it never
inspects the payload). -/
structure Request (ρ : Type) where
  cookiesAuthentication : Option String
  requestAuthentication : Option String
  headersAuthentication : Option String
  user : Option ρ
deriving Repr, DecidableEq

/-- The reasons the authority call can error: an invalid or expired
credential rejected by the authority, or the authority being
unreachable. The guard treats all of them alike. -/
inductive AuthorityError where
  | invalidToken
  | expiredToken
  | unreachable
deriving Repr, DecidableEq

/-- The outcome of `canActivate`: the boolean decision, the request as
left behind by the guard, and the list of credentials sent to the
authority over `authClient.send('authenticate', …)` (recorded to reason
about whether a remote call was attempted). -/
structure GuardOutcome (ρ : Type) where
  admitted : Bool
  request : Request ρ
  authorityCalls : List String
deriving Repr, DecidableEq

/-- `JwtAuthGuard.canActivate`'s credential extraction:
`cookies?.Authentication || request?.Authentication ||
headers?.Authentication`. -/
def extractJwt {ρ : Type} (req : Request ρ) : Option String :=
  jsOr (jsOr req.cookiesAuthentication req.requestAuthentication)
    req.headersAuthentication

/-- `JwtAuthGuard.canActivate`: extract the credential; reject outright
when it is falsy; otherwise send it to the authority, attach a
successful response to `request.user` and admit, and reject on any
errored call (`catchError(() => of(false))`). -/
def canActivate {ρ : Type} (authClient : String → Except AuthorityError ρ)
    (req : Request ρ) : GuardOutcome ρ :=
  let jwt := extractJwt req
  if !(jsTruthy jwt) then { admitted := false, request := req, authorityCalls := [] }
  else
    match jwt with
    | none => { admitted := false, request := req, authorityCalls := [] }
    | some t =>
        match authClient t with
        | .ok res =>
            { admitted := true, request := { req with user := some res },
              authorityCalls := [t] }
        | .error _ =>
            { admitted := false, request := req, authorityCalls := [t] }

/-- Specification-side description of the extraction (from the spec's
words, for comparison with `extractJwt`): scan the three transport
locations in order and return the first non-empty credential present. -/
def firstNonEmptyCredential (candidates : List (Option String)) : Option String :=
  (candidates.filterMap id).find? (fun s => !(s == ""))

/-! ## Users service (`apps/auth/src/users/users.service.ts`) -/

/-- The entity-specific fields of `UserDocument`
(`apps/auth/src/users/models/users.schema.ts`): an email and the stored
password hash. -/
structure UserData where
  email : String
  password : String
deriving Repr, DecidableEq

/-- A stored user: `UserDocument extends AbstractDocument`. -/
abbrev UserDocument := Doc UserData

/-- The collection behind `UsersRepository extends
AbstractRepository<UserDocument>`. -/
abbrev UsersCollection := Collection UserData

/-- `CreateUserDto`: the registration payload. -/
structure CreateUserDto where
  email : String
  password : String
deriving Repr, DecidableEq

/-- Model of the external `bcryptjs.hash(password, 10)` call: an opaque
injective digest of the password. -/
def bcryptHash (password : String) : String :=
  "$2b$10$" ++ password

/-- Model of the external `bcryptjs.compare(password, hash)` call: true
exactly when `hash` is the stored digest of `password`. -/
def bcryptCompare (password hash : String) : Bool :=
  hash == bcryptHash password

namespace UsersService

/-- The filter `{ email }` used by the users service. -/
def byEmail (email : String) : UserDocument → Bool :=
  fun d => d.data.email == email

/-- `UsersService.validateCreateUserDto`: probe `findOne({ email })`
inside `try`/`catch`; any caught error means "email free" and returns,
while a successful lookup throws `UnprocessableEntityException('Email
already exist!')`. `lookupAvail` is the store's reachability for this
probe. -/
def validateCreateUserDto (lookupAvail : Bool) (c : UsersCollection)
    (createUser : CreateUserDto) : Except AppError Unit :=
  match AbstractRepository.findOne lookupAvail c (byEmail createUser.email) with
  | .ok _ => .error .unprocessableEntityException
  | .error _ => .ok ()

/-- `UsersService.register`: validate the email, then create the user
with the hashed password. Returns the thrown error or the created
document, together with the collection as left behind. `lookupAvail` and
`createAvail` are the store's reachability for the two successive store
accesses. -/
def register (lookupAvail createAvail : Bool) (c : UsersCollection)
    (createUser : CreateUserDto) :
    Except AppError UserDocument × UsersCollection :=
  match validateCreateUserDto lookupAvail c createUser with
  | .error e => (.error e, c)
  | .ok () =>
      match AbstractRepository.create createAvail c
          { email := createUser.email,
            password := bcryptHash createUser.password } with
      | .ok (d, c') => (.ok d, c')
      | .error e => (.error e, c)

/-- `UsersService.verifyUser`: `findOne({ email })` (whose
`NotFoundException` propagates), then compare the password against the
stored hash, throwing `UnauthorizedException('Credentials are not
valid.')` on mismatch. -/
def verifyUser (avail : Bool) (c : UsersCollection)
    (email password : String) : Except AppError UserDocument :=
  match AbstractRepository.findOne avail c (byEmail email) with
  | .error e => .error e
  | .ok user =>
      if !(bcryptCompare password user.data.password) then
        .error .unauthorizedException
      else .ok user

/-- `UsersService.getUser`: `findOne` by the `GetUserDto` filter
`{ _id: userId }`. The transported id string is cast back to an
`ObjectId` by Mongoose before comparison, so the filter compares ids. -/
def getUser (avail : Bool) (c : UsersCollection) (userId : Nat) :
    Except AppError UserDocument :=
  AbstractRepository.findOne avail c (fun d => d._id == userId)

end UsersService

/-- `LocalStrategy.validate`
(`apps/auth/src/strategies/local.strategy.ts`): delegate to
`verifyUser`, re-throwing every caught error as
`UnauthorizedException(error)`. -/
def localStrategyValidate (avail : Bool) (c : UsersCollection)
    (email password : String) : Except AppError UserDocument :=
  match UsersService.verifyUser avail c email password with
  | .ok user => .ok user
  | .error _ => .error .unauthorizedException

/-- `UserDTO` (`libs/common/src/dto/user.dto.ts`): the identity shape
the guard's callers expect as the authority's response payload. -/
structure UserDto where
  _id : String
  email : String
  password : String
deriving Repr, DecidableEq

/-! ## Token issuance and verification
(`apps/auth/src/auth.service.ts`, `strategies/jwt.strategy.ts`,
`auth.controller.ts`) -/

/-- `Tokenpayload` (`token-payload.interface.ts`): the signed payload
binds the user's id. The source stores `user._id.toHexString()`; since
the hex encoding is bijective and Mongoose casts it back on lookup, the
payload is modelled as carrying the `ObjectId` itself. -/
structure Tokenpayload where
  userId : Nat
deriving Repr, DecidableEq

/-- A token produced by `JwtService.sign`: the payload, the expiry
instant (seconds), and a symbolic signature binding the signing secret
to the contents. -/
structure SignedToken where
  payload : Tokenpayload
  exp : Nat
  sig : String × Tokenpayload × Nat
deriving Repr, DecidableEq

/-- Model of the external `JwtService.sign` with
`expiresIn: JWT_EXPIRATION` seconds: expiry is "now + configured
lifetime" and the signature binds secret, payload and expiry. -/
def jwtSign (secret : String) (expiration now : Nat)
    (payload : Tokenpayload) : SignedToken :=
  { payload, exp := now + expiration, sig := (secret, payload, now + expiration) }

/-- Model of `passport-jwt` verification: accept exactly a token whose
signature was produced with this secret over its own contents and whose
expiry lies in the future. -/
def jwtVerify (secret : String) (now : Nat) (token : SignedToken) :
    Option Tokenpayload :=
  if token.sig = (secret, token.payload, token.exp) ∧ now < token.exp then
    some token.payload
  else none

/-- The read-only configuration of the auth service: signing secret
(`JWT_SECRET`) and token lifetime in seconds (`JWT_EXPIRATION`). -/
structure AuthConfig where
  jwtSecret : String
  jwtExpiration : Nat
deriving Repr, DecidableEq

/-- `AuthService.login` (token issuance): sign `{ userId:
user._id.toHexString() }` with the configured secret and lifetime. (The
issued token is also set as the `Authentication` cookie; the cookie
transport is outside this model.) -/
def login (cfg : AuthConfig) (user : UserDocument) (now : Nat) : SignedToken :=
  jwtSign cfg.jwtSecret cfg.jwtExpiration now { userId := user._id }

/-- `JwtStrategy.validate` after `passport-jwt` verified the token, as
invoked by `AuthController.authenticate` (`@MessagePattern('authenticate')`
returns the user resolved by the strategy): verify signature and expiry
(`UnauthorizedException` on failure), then resolve the full user by the
id embedded in the token. -/
def authenticate (cfg : AuthConfig) (avail : Bool) (c : UsersCollection)
    (now : Nat) (token : SignedToken) : Except AppError UserDocument :=
  match jwtVerify cfg.jwtSecret now token with
  | none => .error .unauthorizedException
  | some payload => UsersService.getUser avail c payload.userId

/-! ## Theorems -/

namespace AbstractRepository

/-- `find?` over a list whose members all have ids below `n`, extended
with a document of id `n`, finds exactly that fresh document. -/
theorem find?_append_fresh {α : Type} (docs : List (Doc α)) (n : Nat)
    (h : ∀ d ∈ docs, d._id < n) (d : Doc α) (hd : d._id = n) :
    (docs ++ [d]).find? (fun x => x._id == n) = some d := by
  induction docs with
  | nil => simp [List.find?, hd]
  | cons a as ih =>
      have ha : (a._id == n) = false := by
        simp [Nat.ne_of_lt (h a (by simp))]
      simpa [List.find?_cons, ha] using
        ih (fun x hx => h x (List.mem_cons_of_mem a hx))

end AbstractRepository

/-- C1: on a filter matching zero stored documents, `findOne`,
`findOneAndUpdate` and `findOneAndDelete` all fail with the same
`NotFoundException`, while `find` returns the empty list and no error. -/
theorem lookup_notFound_uniform {α : Type} (c : Collection α)
    (filterQuery : Doc α → Bool) (update : α → α)
    (h : ∀ d ∈ c.docs, filterQuery d = false) :
    AbstractRepository.findOne true c filterQuery =
        .error .notFoundException ∧
      AbstractRepository.findOneAndUpdate true c filterQuery update =
        .error .notFoundException ∧
      AbstractRepository.findOneAndDelete true c filterQuery =
        .error .notFoundException ∧
      AbstractRepository.find true c filterQuery = .ok [] := by
  have hfind : c.docs.find? filterQuery = none := by
    rw [List.find?_eq_none]
    intro x hx
    simp [h x hx]
  have hfilter : c.docs.filter filterQuery = [] := by
    rw [List.filter_eq_nil_iff]
    intro x hx
    simp [h x hx]
  refine ⟨?_, ?_, ?_, ?_⟩ <;>
    simp [AbstractRepository.findOne, AbstractRepository.findOneAndUpdate,
      AbstractRepository.findOneAndDelete, AbstractRepository.find,
      hfind, hfilter]

/-- Closed instance of C1: a store holding one user document and a
filter matching none of it. -/
theorem lookup_notFound_uniform_witness :
    (∀ d ∈ (⟨[⟨0, ⟨"a@x.com", "h"⟩⟩], 1⟩ : UsersCollection).docs,
        UsersService.byEmail "b@x.com" d = false) ∧
      AbstractRepository.findOne true
          (⟨[⟨0, ⟨"a@x.com", "h"⟩⟩], 1⟩ : UsersCollection)
          (UsersService.byEmail "b@x.com") =
        .error .notFoundException ∧
      AbstractRepository.findOneAndUpdate true
          (⟨[⟨0, ⟨"a@x.com", "h"⟩⟩], 1⟩ : UsersCollection)
          (UsersService.byEmail "b@x.com") id =
        .error .notFoundException ∧
      AbstractRepository.findOneAndDelete true
          (⟨[⟨0, ⟨"a@x.com", "h"⟩⟩], 1⟩ : UsersCollection)
          (UsersService.byEmail "b@x.com") =
        .error .notFoundException ∧
      AbstractRepository.find true
          (⟨[⟨0, ⟨"a@x.com", "h"⟩⟩], 1⟩ : UsersCollection)
          (UsersService.byEmail "b@x.com") = .ok [] :=
  ⟨by decide,
    lookup_notFound_uniform (⟨[⟨0, ⟨"a@x.com", "h"⟩⟩], 1⟩ : UsersCollection)
      (UsersService.byEmail "b@x.com") id (by decide)⟩

/-- C2: on a well-formed store, `create` succeeds, returns the stored
document carrying the assigned fresh id, and a subsequent `findOne` by
that id returns a document equal to the created one. -/
theorem create_findOne_roundtrip {α : Type} (c : Collection α)
    (document : α) (hwf : AbstractRepository.WellFormed c) :
    AbstractRepository.create true c document =
        .ok (⟨c.nextId, document⟩,
          ⟨c.docs ++ [⟨c.nextId, document⟩], c.nextId + 1⟩) ∧
      AbstractRepository.findOne true
          (⟨c.docs ++ [⟨c.nextId, document⟩], c.nextId + 1⟩ : Collection α)
          (fun x => x._id == c.nextId) = .ok ⟨c.nextId, document⟩ := by
  constructor
  · simp [AbstractRepository.create]
  · have hfresh := AbstractRepository.find?_append_fresh c.docs c.nextId hwf
      ⟨c.nextId, document⟩ rfl
    simp [AbstractRepository.findOne, hfresh]

/-- Closed instance of C2: creating a second user in a store already
holding one document and looking it up by the returned id. -/
theorem create_findOne_roundtrip_witness :
    AbstractRepository.WellFormed
        (⟨[⟨0, ⟨"a@x.com", "h"⟩⟩], 1⟩ : UsersCollection) ∧
      AbstractRepository.create true
          (⟨[⟨0, ⟨"a@x.com", "h"⟩⟩], 1⟩ : UsersCollection)
          ⟨"b@x.com", "h2"⟩ =
        .ok (⟨1, ⟨"b@x.com", "h2"⟩⟩,
          ⟨[⟨0, ⟨"a@x.com", "h"⟩⟩, ⟨1, ⟨"b@x.com", "h2"⟩⟩], 2⟩) ∧
      AbstractRepository.findOne true
          (⟨[⟨0, ⟨"a@x.com", "h"⟩⟩, ⟨1, ⟨"b@x.com", "h2"⟩⟩], 2⟩ :
            UsersCollection)
          (fun x => x._id == 1) = .ok ⟨1, ⟨"b@x.com", "h2"⟩⟩ :=
  ⟨by unfold AbstractRepository.WellFormed; decide,
    (create_findOne_roundtrip
      (⟨[⟨0, ⟨"a@x.com", "h"⟩⟩], 1⟩ : UsersCollection)
      ⟨"b@x.com", "h2"⟩ (by unfold AbstractRepository.WellFormed; decide)).1,
    (create_findOne_roundtrip
      (⟨[⟨0, ⟨"a@x.com", "h"⟩⟩], 1⟩ : UsersCollection)
      ⟨"b@x.com", "h2"⟩ (by unfold AbstractRepository.WellFormed; decide)).2⟩

/-- The credentials `canActivate` sends to the authority, as a function
of the extraction alone: nothing on a falsy extraction, the extracted
string otherwise. -/
theorem canActivate_authorityCalls {ρ : Type}
    (authClient : String → Except AuthorityError ρ) (req : Request ρ) :
    (canActivate authClient req).authorityCalls =
      match extractJwt req with
      | none => []
      | some t => if t = "" then [] else [t] := by
  unfold canActivate
  rcases hext : extractJwt req with _ | t
  · simp [jsTruthy]
  · by_cases ht : t = ""
    · simp [jsTruthy, ht]
    · rcases hcall : authClient t with u | e <;> simp [jsTruthy, ht, hcall]

/-- `a || b` when `a` is truthy. -/
theorem jsOr_truthy (a b : Option String) (h : jsTruthy a = true) :
    jsOr a b = a := by
  simp [jsOr, h]

/-- `a || b` when `a` is falsy. -/
theorem jsOr_falsy (a b : Option String) (h : jsTruthy a = false) :
    jsOr a b = b := by
  simp [jsOr, h]

/-- A falsy head does not contribute to the first non-empty credential. -/
theorem firstNonEmptyCredential_cons_falsy (a : Option String)
    (rest : List (Option String)) (h : jsTruthy a = false) :
    firstNonEmptyCredential (a :: rest) = firstNonEmptyCredential rest := by
  rcases a with _ | s
  · simp [firstNonEmptyCredential]
  · have hs : (s == "") = true := by simpa [jsTruthy] using h
    simp [firstNonEmptyCredential, List.find?, hs]

/-- A truthy head is the first non-empty credential. -/
theorem firstNonEmptyCredential_cons_truthy (s : String)
    (rest : List (Option String)) (h : (s == "") = false) :
    firstNonEmptyCredential (some s :: rest) = some s := by
  simp [firstNonEmptyCredential, List.find?, h]

/-- C3: for every request and every authority, the credential the guard
sends to the authority is exactly the first non-empty credential among
the `Authentication` cookie, the raw `Authentication` request field and
the `Authentication` header, scanned in that order (and nothing is sent
when all three are empty or absent). -/
theorem guard_extraction_order {ρ : Type}
    (authClient : String → Except AuthorityError ρ) (req : Request ρ) :
    (canActivate authClient req).authorityCalls =
      (firstNonEmptyCredential [req.cookiesAuthentication,
        req.requestAuthentication, req.headersAuthentication]).toList := by
  rw [canActivate_authorityCalls]
  rcases req with ⟨c, r, h, u⟩
  simp only [extractJwt]
  by_cases hc : jsTruthy c
  · rcases c with _ | s
    · simp [jsTruthy] at hc
    · have hs : (s == "") = false := by simpa [jsTruthy] using hc
      rw [jsOr_truthy _ _ hc, jsOr_truthy _ _ hc,
        firstNonEmptyCredential_cons_truthy s _ hs]
      have hs2 : ¬s = "" := by simpa using hs
      simp [hs2]
  · have hc2 : jsTruthy c = false := by simpa using hc
    rw [jsOr_falsy c r hc2, firstNonEmptyCredential_cons_falsy c _ hc2]
    by_cases hr : jsTruthy r
    · rcases r with _ | t
      · simp [jsTruthy] at hr
      · have ht : (t == "") = false := by simpa [jsTruthy] using hr
        rw [jsOr_truthy _ _ hr, firstNonEmptyCredential_cons_truthy t _ ht]
        have ht2 : ¬t = "" := by simpa using ht
        simp [ht2]
    · have hr2 : jsTruthy r = false := by simpa using hr
      rw [jsOr_falsy r h hr2, firstNonEmptyCredential_cons_falsy r _ hr2]
      rcases h with _ | w
      · simp [firstNonEmptyCredential]
      · by_cases hw : w = ""
        · simp [firstNonEmptyCredential, List.find?, hw]
        · have hw2 : (w == "") = false := by simpa using hw
          simp [firstNonEmptyCredential, List.find?, hw, hw2]

/-- C4: a request carrying no truthy credential in any of the three
transport locations is rejected with no authority call, for every
authority. -/
theorem guard_reject_without_credential {ρ : Type} (req : Request ρ)
    (hc : jsTruthy req.cookiesAuthentication = false)
    (hr : jsTruthy req.requestAuthentication = false)
    (hh : jsTruthy req.headersAuthentication = false) :
    ∀ authClient : String → Except AuthorityError ρ,
      canActivate authClient req =
        { admitted := false, request := req, authorityCalls := [] } := by
  intro authClient
  unfold canActivate extractJwt
  simp [jsOr, hc, hr, hh]

/-- Closed instance of C4: an empty-string cookie, an absent request
field and an absent header, against an authority that would accept. -/
theorem guard_reject_without_credential_witness :
    jsTruthy (Request.cookiesAuthentication
        (⟨some "", none, none, none⟩ : Request UserDto)) = false ∧
      canActivate (fun _ => .ok ⟨"0", "a@x.com", "h"⟩)
          (⟨some "", none, none, none⟩ : Request UserDto) =
        { admitted := false,
          request := (⟨some "", none, none, none⟩ : Request UserDto),
          authorityCalls := [] } :=
  ⟨by decide,
    guard_reject_without_credential (⟨some "", none, none, none⟩ : Request UserDto)
      (by decide) (by decide) (by decide) (fun _ => .ok ⟨"0", "a@x.com", "h"⟩)⟩

/-- C5: on a request carrying a credential, a successful authority
response attaches the payload to `request.user` and admits; an errored
authority call rejects, uniformly for every error reason. -/
theorem guard_resolve_admit_or_reject
    (authClient : String → Except AuthorityError UserDto)
    (req : Request UserDto) (t : String)
    (hext : extractJwt req = some t) (hne : t ≠ "") :
    (∀ u, authClient t = .ok u →
      canActivate authClient req =
        { admitted := true, request := { req with user := some u },
          authorityCalls := [t] }) ∧
      (∀ e, authClient t = .error e →
        canActivate authClient req =
          { admitted := false, request := req, authorityCalls := [t] }) := by
  constructor <;> intro x hx <;>
    simp [canActivate, hext, jsTruthy, hne, hx]

/-- Closed instance of C5: a cookie-borne token against an authority
accepting exactly that token (admission case) and against an authority
that errors (rejection case). -/
theorem guard_resolve_admit_or_reject_witness :
    extractJwt (⟨some "tok", none, none, none⟩ : Request UserDto) = some "tok" ∧
      canActivate
          (fun s => if s = "tok" then .ok ⟨"0", "a@x.com", "h"⟩
            else .error .invalidToken)
          (⟨some "tok", none, none, none⟩ : Request UserDto) =
        { admitted := true,
          request := ⟨some "tok", none, none, some ⟨"0", "a@x.com", "h"⟩⟩,
          authorityCalls := ["tok"] } ∧
      canActivate (fun _ => (.error .unreachable : Except AuthorityError UserDto))
          (⟨some "tok", none, none, none⟩ : Request UserDto) =
        { admitted := false,
          request := ⟨some "tok", none, none, none⟩,
          authorityCalls := ["tok"] } :=
  ⟨by decide,
    (guard_resolve_admit_or_reject
        (fun s => if s = "tok" then .ok ⟨"0", "a@x.com", "h"⟩
          else .error .invalidToken)
        (⟨some "tok", none, none, none⟩ : Request UserDto) "tok"
        (by decide) (by decide)).1 ⟨"0", "a@x.com", "h"⟩ (by simp),
    (guard_resolve_admit_or_reject
        (fun _ => (.error .unreachable : Except AuthorityError UserDto))
        (⟨some "tok", none, none, none⟩ : Request UserDto) "tok"
        (by decide) (by decide)).2 .unreachable rfl⟩

/-- C10: the guard never inspects a successful payload: for an arbitrary
payload type and an arbitrary payload value (including a nullish one),
the payload is attached verbatim as the user and the request admitted. -/
theorem guard_payload_verbatim {ρ : Type}
    (authClient : String → Except AuthorityError ρ) (req : Request ρ)
    (t : String) (p : ρ) (hext : extractJwt req = some t) (hne : t ≠ "")
    (hok : authClient t = .ok p) :
    canActivate authClient req =
      { admitted := true, request := { req with user := some p },
        authorityCalls := [t] } := by
  simp [canActivate, hext, jsTruthy, hne, hok]

/-- Closed instance of C10 at payload type `Option UserDto` with the
null payload: the guard admits and attaches the null identity
verbatim. -/
theorem guard_payload_verbatim_witness :
    extractJwt (⟨some "tok", none, none, none⟩ : Request (Option UserDto)) =
        some "tok" ∧
      (fun _ : String => (.ok none : Except AuthorityError (Option UserDto)))
          "tok" = .ok none ∧
      canActivate
          (fun _ => (.ok none : Except AuthorityError (Option UserDto)))
          (⟨some "tok", none, none, none⟩ : Request (Option UserDto)) =
        { admitted := true,
          request := ⟨some "tok", none, none, some none⟩,
          authorityCalls := ["tok"] } :=
  ⟨by decide, rfl,
    guard_payload_verbatim
      (fun _ => (.ok none : Except AuthorityError (Option UserDto)))
      (⟨some "tok", none, none, none⟩ : Request (Option UserDto)) "tok" none
      (by decide) (by decide) rfl⟩

/-- C6 counterexample: on a store with no users, `verifyUser` fails with
`NotFoundException` (propagated from `findOne`), not with the
`UnauthorizedException` the claim asserts for the unknown-identifier
case. -/
theorem verifyUser_unknown_email_not_unauthorized :
    UsersService.verifyUser true (⟨[], 0⟩ : UsersCollection) "a@x.com" "pw123!" =
        .error .notFoundException ∧
      AppError.notFoundException ≠ AppError.unauthorizedException :=
  ⟨rfl, by decide⟩

/-- C6 amended: `verifyUser` fails with `NotFoundException` when no user
carries the email, with `UnauthorizedException` when the secret does not
match the stored hash, and returns the stored user on a match; the
`LocalStrategy.validate` wrapper re-raises every failure as
`UnauthorizedException`. -/
theorem verifyUser_failure_modes (c : UsersCollection)
    (email password : String) :
    (c.docs.find? (UsersService.byEmail email) = none →
        UsersService.verifyUser true c email password =
            .error .notFoundException ∧
          localStrategyValidate true c email password =
            .error .unauthorizedException) ∧
      (∀ u, c.docs.find? (UsersService.byEmail email) = some u →
        (bcryptCompare password u.data.password = false →
            UsersService.verifyUser true c email password =
                .error .unauthorizedException ∧
              localStrategyValidate true c email password =
                .error .unauthorizedException) ∧
          (bcryptCompare password u.data.password = true →
            UsersService.verifyUser true c email password = .ok u ∧
              localStrategyValidate true c email password = .ok u)) := by
  refine ⟨?_, ?_⟩
  · intro hnone
    constructor <;>
      simp [UsersService.verifyUser, localStrategyValidate,
        AbstractRepository.findOne, hnone]
  · intro u hu
    constructor <;> intro hcmp <;> constructor <;>
      simp [UsersService.verifyUser, localStrategyValidate,
        AbstractRepository.findOne, hu, hcmp]

/-- Closed instance of C6 (amended): the three credential-validation
outcomes on concrete stores. -/
theorem verifyUser_failure_modes_witness :
    UsersService.verifyUser true (⟨[], 7⟩ : UsersCollection) "b@x.com" "pw" =
        .error .notFoundException ∧
      UsersService.verifyUser true
          (⟨[⟨0, ⟨"b@x.com", bcryptHash "pw"⟩⟩], 1⟩ : UsersCollection)
          "b@x.com" "wrong" = .error .unauthorizedException ∧
      UsersService.verifyUser true
          (⟨[⟨0, ⟨"b@x.com", bcryptHash "pw"⟩⟩], 1⟩ : UsersCollection)
          "b@x.com" "pw" = .ok ⟨0, ⟨"b@x.com", bcryptHash "pw"⟩⟩ :=
  ⟨((verifyUser_failure_modes (⟨[], 7⟩ : UsersCollection) "b@x.com" "pw").1
      (by decide)).1,
    (((verifyUser_failure_modes
        (⟨[⟨0, ⟨"b@x.com", bcryptHash "pw"⟩⟩], 1⟩ : UsersCollection)
        "b@x.com" "wrong").2 ⟨0, ⟨"b@x.com", bcryptHash "pw"⟩⟩
        (by decide)).1 (by decide)).1,
    (((verifyUser_failure_modes
        (⟨[⟨0, ⟨"b@x.com", bcryptHash "pw"⟩⟩], 1⟩ : UsersCollection)
        "b@x.com" "pw").2 ⟨0, ⟨"b@x.com", bcryptHash "pw"⟩⟩
        (by decide)).2 (by decide)).1⟩

/-- C7: when a user with the requested email already exists, `register`
fails with the distinct duplicate-email error
(`UnprocessableEntityException('Email already exist!')`, the source's
realization of the spec's `Conflict` category), the store is left
unchanged (the existence check precedes the write), and the first user
is still retrievable by email. -/
theorem register_duplicate_email (c : UsersCollection)
    (createUser : CreateUserDto) (u : UserDocument)
    (hu : c.docs.find? (UsersService.byEmail createUser.email) = some u) :
    UsersService.register true true c createUser =
        (.error .unprocessableEntityException, c) ∧
      AbstractRepository.findOne true c (UsersService.byEmail createUser.email) =
        .ok u ∧
      AppError.unprocessableEntityException ≠ AppError.notFoundException ∧
      AppError.unprocessableEntityException ≠ AppError.unauthorizedException := by
  refine ⟨?_, ?_, by decide, by decide⟩
  · simp [UsersService.register, UsersService.validateCreateUserDto,
      AbstractRepository.findOne, hu]
  · simp [AbstractRepository.findOne, hu]

/-- Closed instance of C7: registering `a@x.com` twice. -/
theorem register_duplicate_email_witness :
    UsersService.register true true
        (⟨[⟨0, ⟨"a@x.com", bcryptHash "pw123!"⟩⟩], 1⟩ : UsersCollection)
        ⟨"a@x.com", "other"⟩ =
      (.error .unprocessableEntityException,
        (⟨[⟨0, ⟨"a@x.com", bcryptHash "pw123!"⟩⟩], 1⟩ : UsersCollection)) ∧
      AbstractRepository.findOne true
          (⟨[⟨0, ⟨"a@x.com", bcryptHash "pw123!"⟩⟩], 1⟩ : UsersCollection)
          (UsersService.byEmail "a@x.com") =
        .ok ⟨0, ⟨"a@x.com", bcryptHash "pw123!"⟩⟩ :=
  ⟨(register_duplicate_email
      (⟨[⟨0, ⟨"a@x.com", bcryptHash "pw123!"⟩⟩], 1⟩ : UsersCollection)
      ⟨"a@x.com", "other"⟩ ⟨0, ⟨"a@x.com", bcryptHash "pw123!"⟩⟩ (by decide)).1,
    (register_duplicate_email
      (⟨[⟨0, ⟨"a@x.com", bcryptHash "pw123!"⟩⟩], 1⟩ : UsersCollection)
      ⟨"a@x.com", "other"⟩ ⟨0, ⟨"a@x.com", bcryptHash "pw123!"⟩⟩
      (by decide)).2.1⟩

/-- C9: the pre-write uniqueness probe swallows every lookup failure.
When the probe's store access fails (here: `Unavailable`), validation
reports the email as free and `register` proceeds to create the user —
on every store, including one already holding that email. Conversely,
with the store reachable, `register` aborts with the duplicate-email
error exactly when the probe successfully returns an existing user. -/
theorem register_lookup_error_swallowed (c : UsersCollection)
    (createUser : CreateUserDto) :
    UsersService.validateCreateUserDto false c createUser = .ok () ∧
      UsersService.register false true c createUser =
        (.ok ⟨c.nextId, ⟨createUser.email, bcryptHash createUser.password⟩⟩,
          ⟨c.docs ++
              [⟨c.nextId, ⟨createUser.email, bcryptHash createUser.password⟩⟩],
            c.nextId + 1⟩) ∧
      ((UsersService.register true true c createUser).1 =
          .error .unprocessableEntityException ↔
        ∃ u, c.docs.find? (UsersService.byEmail createUser.email) = some u) := by
  refine ⟨?_, ?_, ?_⟩
  · simp [UsersService.validateCreateUserDto, AbstractRepository.findOne]
  · simp [UsersService.register, UsersService.validateCreateUserDto,
      AbstractRepository.findOne, AbstractRepository.create]
  · rcases hfind : c.docs.find? (UsersService.byEmail createUser.email) with _ | u
    · simp [UsersService.register, UsersService.validateCreateUserDto,
        AbstractRepository.findOne, AbstractRepository.create, hfind]
    · simp [UsersService.register, UsersService.validateCreateUserDto,
        AbstractRepository.findOne, hfind]

/-- C8 counterexample: create `a@x.com` with secret `pw123!`, issue a
token after successful credential validation, authenticate it — the
resolved result is the full stored user document, whose `password` field
still carries the (non-empty) stored secret hash, refuting "no secret
field exposed in the result". -/
theorem authenticate_exposes_password_hash :
    UsersService.register true true (⟨[], 0⟩ : UsersCollection)
        ⟨"a@x.com", "pw123!"⟩ =
      (.ok ⟨0, ⟨"a@x.com", bcryptHash "pw123!"⟩⟩,
        ⟨[⟨0, ⟨"a@x.com", bcryptHash "pw123!"⟩⟩], 1⟩) ∧
      UsersService.verifyUser true
          (⟨[⟨0, ⟨"a@x.com", bcryptHash "pw123!"⟩⟩], 1⟩ : UsersCollection)
          "a@x.com" "pw123!" = .ok ⟨0, ⟨"a@x.com", bcryptHash "pw123!"⟩⟩ ∧
      authenticate ⟨"secret", 3600⟩ true
          (⟨[⟨0, ⟨"a@x.com", bcryptHash "pw123!"⟩⟩], 1⟩ : UsersCollection) 1
          (login ⟨"secret", 3600⟩ ⟨0, ⟨"a@x.com", bcryptHash "pw123!"⟩⟩ 0) =
        .ok ⟨0, ⟨"a@x.com", bcryptHash "pw123!"⟩⟩ ∧
      bcryptHash "pw123!" ≠ "" := by
  refine ⟨rfl, rfl, ?_, by decide⟩
  simp [authenticate, login, jwtSign, jwtVerify, UsersService.getUser,
    AbstractRepository.findOne, List.find?]

/-- C8 amended: the round-trip resolves the same user's identity — same
assigned id, same email — but the result is the full stored document,
whose `password` field carries the stored secret hash (the secret is not
stripped). -/
theorem register_login_authenticate_roundtrip (cfg : AuthConfig)
    (c : UsersCollection) (createUser : CreateUserDto)
    (hwf : AbstractRepository.WellFormed c)
    (hfree : c.docs.find? (UsersService.byEmail createUser.email) = none)
    (now1 now2 : Nat) (hexp : now2 < now1 + cfg.jwtExpiration) :
    UsersService.register true true c createUser =
        (.ok ⟨c.nextId, ⟨createUser.email, bcryptHash createUser.password⟩⟩,
          ⟨c.docs ++
              [⟨c.nextId, ⟨createUser.email, bcryptHash createUser.password⟩⟩],
            c.nextId + 1⟩) ∧
      UsersService.verifyUser true
          ⟨c.docs ++
              [⟨c.nextId, ⟨createUser.email, bcryptHash createUser.password⟩⟩],
            c.nextId + 1⟩ createUser.email createUser.password =
        .ok ⟨c.nextId, ⟨createUser.email, bcryptHash createUser.password⟩⟩ ∧
      authenticate cfg true
          ⟨c.docs ++
              [⟨c.nextId, ⟨createUser.email, bcryptHash createUser.password⟩⟩],
            c.nextId + 1⟩ now2
          (login cfg ⟨c.nextId, ⟨createUser.email, bcryptHash createUser.password⟩⟩
            now1) =
        .ok ⟨c.nextId, ⟨createUser.email, bcryptHash createUser.password⟩⟩ := by
  refine ⟨?_, ?_, ?_⟩
  · simp [UsersService.register, UsersService.validateCreateUserDto,
      AbstractRepository.findOne, AbstractRepository.create, hfree]
  · unfold UsersService.verifyUser AbstractRepository.findOne
    rw [List.find?_append, hfree]
    simp [UsersService.byEmail, bcryptCompare, List.find?]
  · have hfresh := AbstractRepository.find?_append_fresh c.docs c.nextId hwf
      ⟨c.nextId, ⟨createUser.email, bcryptHash createUser.password⟩⟩ rfl
    simp [authenticate, login, jwtSign, jwtVerify, hexp, UsersService.getUser,
      AbstractRepository.findOne, hfresh]

/-- Closed instance of C8 (amended): the concrete chain for `a@x.com` /
`pw123!` starting from an empty store. -/
theorem register_login_authenticate_roundtrip_witness :
    UsersService.register true true (⟨[], 0⟩ : UsersCollection)
        ⟨"a@x.com", "pw123!"⟩ =
      (.ok ⟨0, ⟨"a@x.com", bcryptHash "pw123!"⟩⟩,
        ⟨[⟨0, ⟨"a@x.com", bcryptHash "pw123!"⟩⟩], 1⟩) ∧
      UsersService.verifyUser true
          (⟨[⟨0, ⟨"a@x.com", bcryptHash "pw123!"⟩⟩], 1⟩ : UsersCollection)
          "a@x.com" "pw123!" = .ok ⟨0, ⟨"a@x.com", bcryptHash "pw123!"⟩⟩ ∧
      authenticate ⟨"secret", 3600⟩ true
          (⟨[⟨0, ⟨"a@x.com", bcryptHash "pw123!"⟩⟩], 1⟩ : UsersCollection) 42
          (login ⟨"secret", 3600⟩ ⟨0, ⟨"a@x.com", bcryptHash "pw123!"⟩⟩ 0) =
        .ok ⟨0, ⟨"a@x.com", bcryptHash "pw123!"⟩⟩ :=
  register_login_authenticate_roundtrip ⟨"secret", 3600⟩
    (⟨[], 0⟩ : UsersCollection) ⟨"a@x.com", "pw123!"⟩
    (by unfold AbstractRepository.WellFormed; decide) (by decide) 0 42
    (by decide)

end NestMicro
